import Mathlib

/-!
Shallow embedding of the 6502 emulator prototype in src/main.cpp.

`Word` is `uint8_t` and addresses are `uint16_t`; both are modelled as `Nat`
with an explicit truncation (`% 256`, `% 65536`) exactly where the C++ code
performs a conversion to the narrower unsigned type (unsigned conversions are
defined as reduction modulo 2^N).  An out-of-bounds index into the 65536-byte
`std::array` (undefined behaviour in C++) is modelled by `Option` / `Except`.
-/

namespace Emu6502

/-- Register file of `struct CPU` (src/main.cpp lines 7 to 13). -/
structure CPU where
  PC : Nat
  AC : Nat
  X : Nat
  Y : Nat
  SR : Nat
  SP : Nat
deriving DecidableEq

-- Flag masks of `CPU::Flag` (src/main.cpp lines 16 to 25).
namespace Flag
def Negative : Nat := 0x80
def Overflow : Nat := 0x40
def Ignored : Nat := 0x20
def Break : Nat := 0x10
def Decimal : Nat := 0x08
def Interrupt : Nat := 0x04
def Zero : Nat := 0x02
def Carry : Nat := 0x01
end Flag

/-- `SR &= ~flags` (line 27).  `flags` is a `Word`, so on the 8-bit register
the complement `~flags` acts as the 8-bit complement `255 ^^^ flags`. -/
def clear_flags (cpu : CPU) (flags : Nat) : CPU :=
  { cpu with SR := cpu.SR &&& (255 ^^^ flags) }

/-- `SR |= flags` (line 28). -/
def set_flags (cpu : CPU) (flags : Nat) : CPU :=
  { cpu with SR := cpu.SR ||| flags }

/-- `SR &= ~flags; SR |= value ? flags : 0` (lines 29 to 32). -/
def assign_flags (cpu : CPU) (flags : Nat) (value : Bool) : CPU :=
  let cpu := clear_flags cpu flags
  { cpu with SR := cpu.SR ||| (if value then flags else 0) }

/-- `assign_flags(Flag::Zero, w == 0)` (lines 34 to 36). -/
def update_zero_flag (cpu : CPU) (w : Nat) : CPU :=
  assign_flags cpu Flag.Zero (w == 0)

/-- `assign_flags(Flag::Negative, w & (1 << 7))` (lines 38 to 40); the `Word`
argument is converted to `bool`, i.e. tested against zero. -/
def update_negative_flag (cpu : CPU) (w : Nat) : CPU :=
  assign_flags cpu Flag.Negative ((w &&& (1 <<< 7)) != 0)

/-- `transfer(Word& dst, Word src)` (lines 54 to 58).  The reference
parameter `dst` is modelled by a register setter.  Note the source updates
the Zero and Negative flags from `AC`, whatever the destination is. -/
def transfer (cpu : CPU) (dst : CPU → Nat → CPU) (src : Nat) : CPU :=
  let cpu := dst cpu src
  let cpu := update_zero_flag cpu cpu.AC
  update_negative_flag cpu cpu.AC

/-- Setter for the reference `AC`. -/
def setAC (cpu : CPU) (v : Nat) : CPU := { cpu with AC := v }

/-- Setter for the reference `X`. -/
def setX (cpu : CPU) (v : Nat) : CPU := { cpu with X := v }

/-- Setter for the reference `Y`. -/
def setY (cpu : CPU) (v : Nat) : CPU := { cpu with Y := v }

/-- `eor` (lines 64 to 68): `AC ^= w`, then Zero and Negative from `AC`. -/
def eor (cpu : CPU) (w : Nat) : CPU :=
  let cpu := { cpu with AC := cpu.AC ^^^ w }
  let cpu := update_zero_flag cpu cpu.AC
  update_negative_flag cpu cpu.AC

/-- `adc` (lines 76 to 81): `AC += w + (SR & Flag::Carry)` on the 8-bit
accumulator, then Zero and Negative from `AC`.  The source leaves the Carry
and Overflow flags untouched (its TODO comment). -/
def adc (cpu : CPU) (w : Nat) : CPU :=
  let cpu := { cpu with AC := (cpu.AC + (w + (cpu.SR &&& Flag.Carry))) % 256 }
  let cpu := update_zero_flag cpu cpu.AC
  update_negative_flag cpu cpu.AC

/-- `rol(Word& w)` (lines 90 to 96).  Returns the updated CPU together with
the value written back through the reference `w`. -/
def rol (cpu : CPU) (w : Nat) : CPU × Nat :=
  let new_carry := w >>> 7
  let w := ((w <<< 1) ||| (cpu.SR &&& Flag.Carry)) % 256
  let cpu := update_zero_flag cpu w
  let cpu := update_negative_flag cpu w
  (assign_flags cpu Flag.Carry (new_carry != 0), w)

/-- `lda` (line 98). -/
def lda (cpu : CPU) (w : Nat) : CPU := transfer cpu setAC w

/-- `ldx` (line 99). -/
def ldx (cpu : CPU) (w : Nat) : CPU := transfer cpu setX w

/-- `ldy` (line 100). -/
def ldy (cpu : CPU) (w : Nat) : CPU := transfer cpu setY w

/-- `tax` (line 108). -/
def tax (cpu : CPU) : CPU := transfer cpu setX cpu.AC

/-- `tay` (line 109). -/
def tay (cpu : CPU) : CPU := transfer cpu setY cpu.AC

/-- `txa` (line 110). -/
def txa (cpu : CPU) : CPU := transfer cpu setAC cpu.X

/-- `tya` (line 111). -/
def tya (cpu : CPU) : CPU := transfer cpu setAC cpu.Y

/-- `tsx` (line 112). -/
def tsx (cpu : CPU) : CPU := transfer cpu setX cpu.SP

/-- `txs` (line 113): no flag update. -/
def txs (cpu : CPU) : CPU := { cpu with SP := cpu.X }

/-- `clc` (line 115). -/
def clc (cpu : CPU) : CPU := clear_flags cpu Flag.Carry

/-- `cld` (line 116). -/
def cld (cpu : CPU) : CPU := clear_flags cpu Flag.Decimal

/-- `cli` (line 117). -/
def cli (cpu : CPU) : CPU := clear_flags cpu Flag.Interrupt

/-- `clv` (line 118). -/
def clv (cpu : CPU) : CPU := clear_flags cpu Flag.Overflow

/-- `sec` (line 120). -/
def sec (cpu : CPU) : CPU := set_flags cpu Flag.Carry

/-- `sed` (line 121). -/
def sed (cpu : CPU) : CPU := set_flags cpu Flag.Decimal

/-- `sei` (line 122). -/
def sei (cpu : CPU) : CPU := set_flags cpu Flag.Interrupt

/-- `struct Machine` (lines 126 to 130): a 65536-byte memory and a CPU.
The array is modelled as a function; every access in the source goes through
an index that is either a `uint16_t` (hence in bounds) or explicitly
bounds-checked in this embedding (see `read_long`). -/
structure Machine where
  memory : Nat → Nat
  cpu : CPU

/-- `memory_size = 1 << 16` (line 127). -/
def memory_size : Nat := 1 <<< 16

/-- `read_word` (lines 132 to 134).  The parameter is a `uint16_t`, so the
argument is reduced modulo 65536 on entry; the index is then in bounds. -/
def read_word (m : Machine) (address : Nat) : Nat :=
  m.memory (address % 65536)

/-- `read_long` (lines 136 to 138): `uint16_t(memory[address + 1]) << 8 |
memory[address]`.  The parameter wraps modulo 65536; `address + 1` is
computed in `int`, so for `address = 0xFFFF` the index is 65536, one past
the end of the array: undefined behaviour, modelled as `none`. -/
def read_long (m : Machine) (address : Nat) : Option Nat :=
  let a := address % 65536
  if a + 1 < memory_size then
    some ((m.memory (a + 1)) <<< 8 ||| m.memory a)
  else
    none

/-- Undefined behaviour that the dispatch code can run into: reading the
local variables `address` / `width` without them having been assigned
(the `switch` in `normal_dispatch` has no default case), or an
out-of-bounds memory access inside `read_long`. -/
inductive Fault where
  | uninitRead : Fault
  | oobRead : Fault
deriving DecidableEq

/-- `Word addressing_mode = ((lo_op - 1) >> 1) | (hi_op & 0x01)` with
`lo_op = opcode & 0x0f` and `hi_op = (opcode & 0xf0) >> 4`
(lines 164 to 166).  (For `lo_op = 0` the C++ computation on promoted `int`
differs from `Nat` subtraction, but `normal_dispatch` is only ever invoked
with `lo_op` in the recognized set, which excludes 0.) -/
def addressing_mode (opcode : Nat) : Nat :=
  let lo_op := opcode &&& 0x0f
  let hi_op := (opcode &&& 0xf0) >>> 4
  ((lo_op - 1) >>> 1) ||| (hi_op &&& 0x01)

/-- The `switch (addressing_mode)` of `normal_dispatch` (lines 161 to 201),
factored as a function from the mode to the assigned `(address, width)`.
Each assignment to the `uint16_t` variable `address` reduces its right-hand
side modulo 65536 (the unsigned conversion).  A missing case means
`address` and `width` stay unassigned, modelled as `Fault.uninitRead`. -/
def resolve_address (m : Machine) (mode : Nat) : Except Fault (Nat × Nat) :=
  if mode = 0 then
    (read_long m (read_word m (m.cpu.PC + 1) + m.cpu.X)).elim
      (.error .oobRead) (fun v => .ok (v % 65536, 2))
  else if mode = 1 then
    (read_long m (read_word m (m.cpu.PC + 1))).elim
      (.error .oobRead) (fun v => .ok ((v + m.cpu.Y) % 65536, 2))
  else if mode = 2 then
    .ok (read_word m (m.cpu.PC + 1) % 65536, 2)
  else if mode = 3 then
    .ok ((read_word m (m.cpu.PC + 1) + m.cpu.X) % 256 % 65536, 2)
  else if mode = 4 then
    .ok ((m.cpu.PC + 1) % 65536, 2)
  else if mode = 5 then
    (read_long m (m.cpu.PC + 1)).elim
      (.error .oobRead) (fun v => .ok ((v + m.cpu.Y) % 65536, 3))
  else if mode = 6 then
    (read_long m (m.cpu.PC + 1)).elim
      (.error .oobRead) (fun v => .ok (v % 65536, 3))
  else if mode = 7 then
    (read_long m (m.cpu.PC + 1)).elim
      (.error .oobRead) (fun v => .ok ((v + m.cpu.X) % 65536, 3))
  else
    .error .uninitRead

/-- `normal_dispatch` (lines 140 to 206): resolve the addressing mode, then
unconditionally `cpu.adc(memory[address])` (the TODO in the source: the
instruction is not chosen from the opcode), then `cpu.PC += width` on the
16-bit program counter. -/
def normal_dispatch (m : Machine) (opcode : Nat) : Except Fault Machine :=
  match resolve_address m (addressing_mode opcode) with
  | .error e => .error e
  | .ok (address, width) =>
    let cpu := adc m.cpu (m.memory address)
    .ok { m with cpu := { cpu with PC := (cpu.PC + width) % 65536 } }

/-- `execute_instruction` (lines 208 to 222): read the opcode at PC and
dispatch when the low nibble is recognized; the `switch` has no default
case, so any other opcode falls through and the function returns with the
machine unchanged. -/
def execute_instruction (m : Machine) : Except Fault Machine :=
  let opcode := read_word m m.cpu.PC
  let lo_op := opcode &&& 0x0f
  if lo_op = 0x01 ∨ lo_op = 0x05 ∨ lo_op = 0x06 ∨ lo_op = 0x09 ∨
      lo_op = 0x0D ∨ lo_op = 0x0E then
    normal_dispatch m opcode
  else
    .ok m

/-- A CPU with every register zero, used by the concrete evaluations. -/
def cpu0 : CPU := { PC := 0, AC := 0, X := 0, Y := 0, SR := 0, SP := 0 }

/-- Changing a single status bit: after `f`, bit `bit` of SR holds `v`,
every other SR bit is unchanged, and every data register is unchanged. -/
def ChangesOnlyBit (f : CPU → CPU) (bit : Nat) (v : Bool) (cpu : CPU) : Prop :=
  (f cpu).SR.testBit bit = v
  ∧ (∀ j, j ≠ bit → (f cpu).SR.testBit j = cpu.SR.testBit j)
  ∧ (f cpu).PC = cpu.PC ∧ (f cpu).AC = cpu.AC ∧ (f cpu).X = cpu.X
  ∧ (f cpu).Y = cpu.Y ∧ (f cpu).SP = cpu.SP

theorem tb_if (b : Bool) (flags i : Nat) :
    (if b then flags else 0).testBit i = (b && flags.testBit i) := by
  cases b <;> simp

theorem tb_assign (sr flags i : Nat) (b : Bool) :
    ((sr &&& (255 ^^^ flags)) ||| (if b then flags else 0)).testBit i
      = ((sr.testBit i && (255 ^^^ flags).testBit i) || (b && flags.testBit i)) := by
  rw [Nat.testBit_lor, Nat.testBit_land, tb_if]

theorem tb_not_mask (sr mask i : Nat) (hsr : sr < 256) (hmask : mask.testBit i = false) :
    (sr &&& (255 ^^^ mask)).testBit i = sr.testBit i := by
  rw [Nat.testBit_land, Nat.testBit_xor, hmask]
  by_cases hi : i < 8
  · have h255 : Nat.testBit 255 i = true := by interval_cases i <;> decide
    simp [h255]
  · have h256 : (256 : Nat) ≤ 2 ^ i := by
      calc (256 : Nat) = 2 ^ 8 := by norm_num
      _ ≤ 2 ^ i := Nat.pow_le_pow_right (by norm_num) (by omega)
    have hs : sr.testBit i = false := Nat.testBit_eq_false_of_lt (lt_of_lt_of_le hsr h256)
    have h255 : Nat.testBit 255 i = false :=
      Nat.testBit_eq_false_of_lt (lt_of_lt_of_le (by norm_num) h256)
    simp [hs, h255]

theorem shift7_testBit (w : Nat) (hw : w < 256) : ((w >>> 7) != 0) = w.testBit 7 := by
  rw [Nat.testBit_to_div_mod, Nat.shiftRight_eq_div_pow]
  have h2 : w / 2 ^ 7 < 2 := Nat.div_lt_of_lt_mul (by omega)
  interval_cases h : w / 2 ^ 7 <;> simp

theorem and_hibit_testBit (n : Nat) : ((n &&& 128) != 0) = n.testBit 7 := by
  rw [show (128 : Nat) = 2 ^ 7 from rfl, Nat.and_two_pow]
  cases hb : n.testBit 7 <;> simp

theorem adc_SR (cpu : CPU) (w : Nat) :
    (adc cpu w).SR
      = (((cpu.SR &&& (255 ^^^ 2)) |||
            (if ((cpu.AC + (w + (cpu.SR &&& 1))) % 256) == 0 then 2 else 0)) &&& (255 ^^^ 128))
        ||| (if ((((cpu.AC + (w + (cpu.SR &&& 1))) % 256) &&& (1 <<< 7)) != 0) then 128
             else 0) := rfl

theorem ldx_SR (cpu : CPU) (w : Nat) :
    (ldx cpu w).SR
      = (((cpu.SR &&& (255 ^^^ 2)) ||| (if cpu.AC == 0 then 2 else 0)) &&& (255 ^^^ 128))
        ||| (if ((cpu.AC &&& (1 <<< 7)) != 0) then 128 else 0) := rfl

theorem rol_SR (cpu : CPU) (w : Nat) :
    (rol cpu w).1.SR
      = ((((((cpu.SR &&& (255 ^^^ 2)) |||
              (if (((w <<< 1) ||| (cpu.SR &&& 1)) % 256) == 0 then 2 else 0)) &&& (255 ^^^ 128))
          ||| (if (((((w <<< 1) ||| (cpu.SR &&& 1)) % 256) &&& (1 <<< 7)) != 0) then 128 else 0))
            &&& (255 ^^^ 1))
        ||| (if ((w >>> 7) != 0) then 1 else 0)) := rfl

theorem rol_val (cpu : CPU) (w : Nat) :
    (rol cpu w).2 = ((w <<< 1) ||| (cpu.SR &&& 1)) % 256 := rfl

/-- Memory image of the machine used against C2: opcode 0x49 (EOR immediate)
at address 0, immediate operand 1 at address 1. -/
def mC2 : Machine :=
  { memory := fun a => if a = 0 then 0x49 else if a = 1 then 1 else 0,
    cpu := { cpu0 with AC := 1 } }

/-- Shared part of the two memory images used against C5. -/
def memC5 : Nat → Nat := fun a =>
  if a = 0 then 0x01 else if a = 1 then 0xFF
  else if a = 0x101 then 0x12
  else if a = 0x1234 then 5 else if a = 0x1278 then 9 else 0

/-- Machine used against C5: opcode 0x01 (indexed-indirect X) at address 0,
zero-page pointer byte 0xFF at address 1, X = 1. -/
def mC5a : Machine :=
  { memory := fun a => if a = 0x100 then 0x34 else memC5 a, cpu := { cpu0 with X := 1 } }

/-- Same machine as `mC5a` except for the byte at address 0x100, which is
outside page zero. -/
def mC5b : Machine :=
  { memory := fun a => if a = 0x100 then 0x78 else memC5 a, cpu := { cpu0 with X := 1 } }

/-- Machine used for the C4 witness: every memory byte is 0, so the opcode
at PC is 0x00, whose low nibble 0x0 is not recognized. -/
def mC4 : Machine := { memory := fun _ => 0, cpu := cpu0 }

/-- Machine used against C7: bytes 0x34 at 0xFFFE, 0x12 at 0xFFFF and 0xAB
at 0. -/
def mC7 : Machine :=
  { memory := fun a =>
      if a = 0xFFFE then 0x34 else if a = 0xFFFF then 0x12 else if a = 0 then 0xAB else 0,
    cpu := cpu0 }

/-- C1: the add-with-carry of the prototype updates only the Zero and
Negative flags (the TODO at line 80 of src/main.cpp).  At the claim's own
example (AC=0x50, operand=0x50, carry-in 0) the result is 0xA0 with
Negative set and Zero, Carry clear, but the Overflow flag (bit 6) stays
clear where the claim requires Overflow=1.  In general `adc` leaves the
Carry and Overflow bits of SR exactly as they were, instead of computing
them from the 9-bit sum and the signed-overflow rule. -/
theorem C1_adc_carry_overflow_left_untouched :
    ((adc { cpu0 with AC := 0x50 } 0x50).AC = 0xA0
      ∧ (adc { cpu0 with AC := 0x50 } 0x50).SR.testBit 6 = false
      ∧ (adc { cpu0 with AC := 0x50 } 0x50).SR.testBit 0 = false
      ∧ (adc { cpu0 with AC := 0x50 } 0x50).SR.testBit 7 = true
      ∧ (adc { cpu0 with AC := 0x50 } 0x50).SR.testBit 1 = false)
    ∧ ∀ (cpu : CPU) (w : Nat),
        (adc cpu w).SR.testBit 6 = cpu.SR.testBit 6
        ∧ (adc cpu w).SR.testBit 0 = cpu.SR.testBit 0 := by
  refine ⟨by decide, fun cpu w => ?_⟩
  constructor <;> rw [adc_SR, tb_assign, tb_assign] <;>
    simp [show Nat.testBit 253 6 = true from by decide,
      show Nat.testBit 2 6 = false from by decide,
      show Nat.testBit 127 6 = true from by decide,
      show Nat.testBit 128 6 = false from by decide,
      show Nat.testBit 253 0 = true from by decide,
      show Nat.testBit 2 0 = false from by decide,
      show Nat.testBit 127 0 = true from by decide,
      show Nat.testBit 128 0 = false from by decide]

/-- C3: the transfer helper computes Zero and Negative from the Accumulator
whatever the destination register is (lines 54 to 58).  With AC=0x80,
`ldx 0` loads X with 0, but leaves Zero clear and sets Negative — the flags
of the stale Accumulator — where the claim requires Zero=1, Negative=0
computed from the loaded value 0.  In general `ldx` does set the
destination to the operand, and its Zero flag tracks `AC == 0`, not the
loaded value. -/
theorem C3_transfer_flags_from_accumulator :
    ((ldx { cpu0 with AC := 0x80 } 0).X = 0
      ∧ (ldx { cpu0 with AC := 0x80 } 0).SR.testBit 1 = false
      ∧ (ldx { cpu0 with AC := 0x80 } 0).SR.testBit 7 = true)
    ∧ ∀ (cpu : CPU) (w : Nat),
        (ldx cpu w).X = w ∧ (ldx cpu w).SR.testBit 1 = (cpu.AC == 0) := by
  refine ⟨by decide, fun cpu w => ⟨rfl, ?_⟩⟩
  rw [ldx_SR, tb_assign, tb_assign]
  simp [show Nat.testBit 253 1 = false from by decide,
    show Nat.testBit 2 1 = true from by decide,
    show Nat.testBit 127 1 = true from by decide,
    show Nat.testBit 128 1 = false from by decide]

/-- C7: the little-endian 16-bit read is correct one address below the top,
but at `addr = 0xFFFF` the source computes `memory[0x10000]`, one past the
end of the 65536-byte array (undefined behaviour, modelled as `none`),
instead of wrapping the high-byte index to 0 and returning 0xAB12 as the
claim requires (third conjunct: the value the claim specifies there). -/
theorem C7_read_long_reads_past_end :
    read_long mC7 0xFFFE = some 0x1234
    ∧ read_long mC7 0xFFFF = none
    ∧ ((mC7.memory ((0xFFFF + 1) % 65536)) <<< 8 ||| mC7.memory 0xFFFF) = 0xAB12 := by
  decide

/-- C2: a step on a recognized opcode resolves the operand address and
advances PC by the resolved width, but applies a fixed instruction — `adc`
— regardless of the opcode (the TODO at line 203).  On opcode 0x49, which
is EOR immediate, the step produces AC = 2 (the adc result) and PC = 2,
while the instruction-semantics entry for 0x49 (`eor`) yields AC = 0. -/
theorem C2_dispatch_applies_fixed_adc :
    (execute_instruction mC2).toOption.map (fun m => (m.cpu.AC, m.cpu.PC)) = some (2, 2)
    ∧ read_word mC2 mC2.cpu.PC = 0x49
    ∧ (eor mC2.cpu (read_word mC2 1)).AC = 0
    ∧ (adc mC2.cpu (read_word mC2 1)).AC = 2 := by
  decide

set_option maxRecDepth 4096 in
/-- C5: indexed-indirect(X) resolution does not wrap the pointer index to 8
bits.  `mC5a` and `mC5b` agree on every byte of page zero (and on the whole
CPU); the zero-page pointer byte is 0xFF and X = 1, so the sum is 0x100.
The two runs read different effective addresses — hence different results
(5 versus 9) — because the 16-bit pointer is dereferenced at 0x100/0x101,
outside page zero, where the claim requires the pointer bytes to be read
from page zero (below 0x100). -/
theorem C5_indexed_indirect_no_zero_page_wrap :
    (∀ a, a < 0x100 → mC5a.memory a = mC5b.memory a)
    ∧ mC5a.cpu = mC5b.cpu
    ∧ read_word mC5a (mC5a.cpu.PC + 1) + mC5a.cpu.X = 0x100
    ∧ (execute_instruction mC5a).toOption.map (fun m => m.cpu.AC) = some 5
    ∧ (execute_instruction mC5b).toOption.map (fun m => m.cpu.AC) = some 9 := by
  decide

/-- C4: for an opcode whose low nibble is not in the recognized set, the
`switch` of `execute_instruction` falls through: the function returns with
the machine (PC, registers, flags, memory) completely unchanged and with
no error indication — the C++ function returns `void`, so the result is
indistinguishable from a successful step.  This proves the frame half of
the claim and refutes the reported-failure half. -/
theorem C4_unrecognized_opcode_silently_ignored (m : Machine)
    (h : ¬(read_word m m.cpu.PC &&& 0x0f = 0x01 ∨ read_word m m.cpu.PC &&& 0x0f = 0x05
        ∨ read_word m m.cpu.PC &&& 0x0f = 0x06 ∨ read_word m m.cpu.PC &&& 0x0f = 0x09
        ∨ read_word m m.cpu.PC &&& 0x0f = 0x0D ∨ read_word m m.cpu.PC &&& 0x0f = 0x0E)) :
    execute_instruction m = .ok m := by
  simp only [execute_instruction]
  rw [if_neg h]

/-- Witness for C4 at a concrete machine whose opcode byte is 0x00. -/
theorem C4_unrecognized_opcode_silently_ignored_witness :
    (¬(read_word mC4 mC4.cpu.PC &&& 0x0f = 0x01 ∨ read_word mC4 mC4.cpu.PC &&& 0x0f = 0x05
        ∨ read_word mC4 mC4.cpu.PC &&& 0x0f = 0x06 ∨ read_word mC4 mC4.cpu.PC &&& 0x0f = 0x09
        ∨ read_word mC4 mC4.cpu.PC &&& 0x0f = 0x0D ∨ read_word mC4 mC4.cpu.PC &&& 0x0f = 0x0E))
    ∧ execute_instruction mC4 = .ok mC4 :=
  ⟨by decide, C4_unrecognized_opcode_silently_ignored mC4 (by decide)⟩

/-- C6: zero-page-indexed-X resolution (case 3 of the switch) casts the sum
of the byte at PC+1 and X to `Word`, i.e. reduces it modulo 256, and
assigns it to the 16-bit address, so the effective address is always
strictly below 0x0100. -/
theorem C6_zeropage_x_stays_in_page_zero (m : Machine) :
    resolve_address m 3 = .ok ((read_word m (m.cpu.PC + 1) + m.cpu.X) % 256, 2)
    ∧ (read_word m (m.cpu.PC + 1) + m.cpu.X) % 256 < 0x100 := by
  have hlt : (read_word m (m.cpu.PC + 1) + m.cpu.X) % 256 < 256 :=
    Nat.mod_lt _ (by norm_num)
  have h2 : (read_word m (m.cpu.PC + 1) + m.cpu.X) % 256 % 65536
      = (read_word m (m.cpu.PC + 1) + m.cpu.X) % 256 :=
    Nat.mod_eq_of_lt (lt_trans hlt (by norm_num))
  refine ⟨?_, hlt⟩
  simp only [resolve_address]
  norm_num [h2]

theorem ok_ne_uninit (p : Nat × Nat) :
    (Except.ok p : Except Fault (Nat × Nat)) ≠ .error .uninitRead :=
  fun hc => Except.noConfusion hc

theorem elim_ne_uninit (o : Option Nat) (f : Nat → Except Fault (Nat × Nat))
    (hf : ∀ v, f v ≠ .error .uninitRead) :
    o.elim (Except.error Fault.oobRead) f ≠ .error .uninitRead := by
  cases o with
  | none => exact fun hc => Fault.noConfusion (Except.error.inj hc)
  | some v => exact hf v

/-- C10: for every opcode whose low nibble is recognized, the computed
addressing mode lands in 0..7, so the switch of `normal_dispatch` always
assigns `address` and `width` before they are used: the resolver never
reaches the missing default case (`Fault.uninitRead`). -/
theorem C10_recognized_mode_in_range (opcode : Nat)
    (h : opcode &&& 0x0f = 0x01 ∨ opcode &&& 0x0f = 0x05 ∨ opcode &&& 0x0f = 0x06
       ∨ opcode &&& 0x0f = 0x09 ∨ opcode &&& 0x0f = 0x0D ∨ opcode &&& 0x0f = 0x0E) :
    addressing_mode opcode < 8
    ∧ ∀ m : Machine, resolve_address m (addressing_mode opcode) ≠ .error .uninitRead := by
  have hb : ((opcode &&& 0xf0) >>> 4) &&& 0x01 = 0 ∨ ((opcode &&& 0xf0) >>> 4) &&& 0x01 = 1 := by
    rw [Nat.and_one_is_mod]
    exact Nat.mod_two_eq_zero_or_one _
  have hmode : addressing_mode opcode < 8 := by
    simp only [addressing_mode]
    rcases h with h | h | h | h | h | h <;> rw [h] <;> rcases hb with hb | hb <;> rw [hb] <;>
      decide
  refine ⟨hmode, fun m => ?_⟩
  revert hmode
  generalize addressing_mode opcode = k
  intro hk
  interval_cases k <;> simp only [resolve_address] <;> norm_num <;>
    first
      | exact ok_ne_uninit _
      | exact elim_ne_uninit _ _ (fun v => ok_ne_uninit _)

/-- Witness for C10 at opcode 0x49 (low nibble 0x09). -/
theorem C10_recognized_mode_in_range_witness :
    ((0x49 : Nat) &&& 0x0f = 0x01 ∨ (0x49 : Nat) &&& 0x0f = 0x05 ∨ (0x49 : Nat) &&& 0x0f = 0x06
       ∨ (0x49 : Nat) &&& 0x0f = 0x09 ∨ (0x49 : Nat) &&& 0x0f = 0x0D
       ∨ (0x49 : Nat) &&& 0x0f = 0x0E)
    ∧ (addressing_mode 0x49 < 8
       ∧ ∀ m : Machine, resolve_address m (addressing_mode 0x49) ≠ .error .uninitRead) :=
  ⟨by decide, C10_recognized_mode_in_range 0x49 (by decide)⟩

/-- C8: `rol` writes back `(w << 1) | carry-in` truncated to 8 bits, sets
the Carry flag to bit 7 of the original operand, and computes Zero and
Negative from the written-back value. -/
theorem C8_rol_spec (cpu : CPU) (w : Nat) (hw : w < 256) :
    (rol cpu w).2 = ((w <<< 1) ||| (cpu.SR &&& 1)) % 256
    ∧ (rol cpu w).1.SR.testBit 0 = w.testBit 7
    ∧ (rol cpu w).1.SR.testBit 1 = ((rol cpu w).2 == 0)
    ∧ (rol cpu w).1.SR.testBit 7 = (rol cpu w).2.testBit 7 := by
  refine ⟨rfl, ?_, ?_, ?_⟩
  · rw [rol_SR, tb_assign, ← shift7_testBit w hw]
    simp [show Nat.testBit 254 0 = false from by decide,
      show Nat.testBit 1 0 = true from by decide]
  · rw [rol_SR, tb_assign, tb_assign, tb_assign, rol_val]
    simp [show Nat.testBit 254 1 = true from by decide,
      show Nat.testBit 1 1 = false from by decide,
      show Nat.testBit 127 1 = true from by decide,
      show Nat.testBit 128 1 = false from by decide,
      show Nat.testBit 253 1 = false from by decide,
      show Nat.testBit 2 1 = true from by decide]
  · rw [rol_SR, tb_assign, tb_assign, rol_val]
    simp [and_hibit_testBit,
      show Nat.testBit 254 7 = true from by decide,
      show Nat.testBit 1 7 = false from by decide,
      show Nat.testBit 127 7 = false from by decide,
      show Nat.testBit 128 7 = true from by decide]

/-- Witness for C8 at the claim's example: operand 0x80, carry-in 0. -/
theorem C8_rol_spec_witness :
    (0x80 : Nat) < 256
    ∧ ((rol cpu0 0x80).2 = (((0x80 : Nat) <<< 1) ||| (cpu0.SR &&& 1)) % 256
       ∧ (rol cpu0 0x80).1.SR.testBit 0 = Nat.testBit 0x80 7
       ∧ (rol cpu0 0x80).1.SR.testBit 1 = ((rol cpu0 0x80).2 == 0)
       ∧ (rol cpu0 0x80).1.SR.testBit 7 = (rol cpu0 0x80).2.testBit 7) :=
  ⟨by decide, C8_rol_spec cpu0 0x80 (by decide)⟩

theorem tb_clear_self (cpu : CPU) (k : Nat) (hk : k < 8) :
    (cpu.SR &&& (255 ^^^ 2 ^ k)).testBit k = false := by
  rw [Nat.testBit_land, Nat.testBit_xor]
  have h255 : Nat.testBit 255 k = true := by interval_cases k <;> decide
  simp [h255, Nat.testBit_two_pow_self]

theorem changes_clear (cpu : CPU) (k : Nat) (hcpu : cpu.SR < 256) (hk : k < 8) :
    ChangesOnlyBit (fun c => clear_flags c (2 ^ k)) k false cpu := by
  refine ⟨tb_clear_self cpu k hk, ?_, rfl, rfl, rfl, rfl, rfl⟩
  intro j hj
  exact tb_not_mask cpu.SR (2 ^ k) j hcpu (Nat.testBit_two_pow_of_ne (Ne.symm hj))

theorem changes_set (cpu : CPU) (k : Nat) :
    ChangesOnlyBit (fun c => set_flags c (2 ^ k)) k true cpu := by
  refine ⟨?_, ?_, rfl, rfl, rfl, rfl, rfl⟩
  · show (cpu.SR ||| 2 ^ k).testBit k = true
    simp [Nat.testBit_lor, Nat.testBit_two_pow_self]
  · intro j hj
    show (cpu.SR ||| 2 ^ k).testBit j = cpu.SR.testBit j
    simp [Nat.testBit_lor, Nat.testBit_two_pow_of_ne (Ne.symm hj)]

/-- C9: `clear_flags`, `set_flags` and `assign_flags` leave every SR bit
outside the mask unchanged, and each of the seven one-flag instructions
changes exactly its named bit (Carry = bit 0, Interrupt = bit 2,
Decimal = bit 3, Overflow = bit 6) and no data register. -/
theorem C9_flag_primitives_frame (mask i : Nat) (b : Bool) (cpu : CPU)
    (hmask : mask < 256) (hcpu : cpu.SR < 256) (hout : mask.testBit i = false) :
    (clear_flags cpu mask).SR.testBit i = cpu.SR.testBit i
    ∧ (set_flags cpu mask).SR.testBit i = cpu.SR.testBit i
    ∧ (assign_flags cpu mask b).SR.testBit i = cpu.SR.testBit i
    ∧ ChangesOnlyBit clc 0 false cpu ∧ ChangesOnlyBit cld 3 false cpu
    ∧ ChangesOnlyBit cli 2 false cpu ∧ ChangesOnlyBit clv 6 false cpu
    ∧ ChangesOnlyBit sec 0 true cpu ∧ ChangesOnlyBit sed 3 true cpu
    ∧ ChangesOnlyBit sei 2 true cpu := by
  have hclear : (cpu.SR &&& (255 ^^^ mask)).testBit i = cpu.SR.testBit i :=
    tb_not_mask cpu.SR mask i hcpu hout
  refine ⟨hclear, ?_, ?_, ?_, ?_, ?_, ?_, ?_, ?_, ?_⟩
  · show (cpu.SR ||| mask).testBit i = cpu.SR.testBit i
    simp [Nat.testBit_lor, hout]
  · show ((cpu.SR &&& (255 ^^^ mask)) ||| (if b then mask else 0)).testBit i = cpu.SR.testBit i
    rw [Nat.testBit_lor, tb_if, hout, hclear]
    simp
  · exact changes_clear cpu 0 hcpu (by norm_num)
  · exact changes_clear cpu 3 hcpu (by norm_num)
  · exact changes_clear cpu 2 hcpu (by norm_num)
  · exact changes_clear cpu 6 hcpu (by norm_num)
  · exact changes_set cpu 0
  · exact changes_set cpu 3
  · exact changes_set cpu 2

/-- CPU with SR = 0xAD used by the C9 witness. -/
def cpuC9 : CPU := { cpu0 with SR := 0xAD }

/-- Witness for C9 at mask 0x08, bit 1, value true, SR = 0xAD. -/
theorem C9_flag_primitives_frame_witness :
    ((8 : Nat) < 256 ∧ cpuC9.SR < 256 ∧ Nat.testBit 8 1 = false)
    ∧ ((clear_flags cpuC9 8).SR.testBit 1 = cpuC9.SR.testBit 1
       ∧ (set_flags cpuC9 8).SR.testBit 1 = cpuC9.SR.testBit 1
       ∧ (assign_flags cpuC9 8 true).SR.testBit 1 = cpuC9.SR.testBit 1
       ∧ ChangesOnlyBit clc 0 false cpuC9 ∧ ChangesOnlyBit cld 3 false cpuC9
       ∧ ChangesOnlyBit cli 2 false cpuC9 ∧ ChangesOnlyBit clv 6 false cpuC9
       ∧ ChangesOnlyBit sec 0 true cpuC9 ∧ ChangesOnlyBit sed 3 true cpuC9
       ∧ ChangesOnlyBit sei 2 true cpuC9) :=
  ⟨⟨by decide, by decide, by decide⟩,
    C9_flag_primitives_frame 8 1 true cpuC9 (by decide) (by decide) (by decide)⟩

end Emu6502
